import Mathlib

set_option maxRecDepth 100000
set_option linter.unusedVariables false

/-!
Verification of the CH341 EEPROM factory tool (`ch341_factory.py`).

The development shallowly embeds the Python source:
* Python `bytearray`s become `List Nat` (each element a byte value `< 256`);
* fallible Python operations (`bytearray` item assignment, `str.encode`,
  constructor validation) become `Except PyError` computations;
* Python slice assignment `b[i:j] = xs`, which may RESIZE the bytearray when
  `xs` has a different length than the selected slice, is modelled exactly;
* the batch programming loop and the subprocess-backed device operations are
  modelled by threading an explicit environment (exit codes, data produced by
  the external tool) and an explicit file-system state.
-/

namespace CH341

/-- Python exception kinds raised by the embedded code paths. -/
inductive PyError
  | valueError (msg : String)
  | indexError
  | unicodeEncodeError
  | fileNotFound
deriving DecidableEq

/-- `s.encode('ascii')`: succeeds with the code points iff every character is
ASCII (code point < 128); otherwise raises `UnicodeEncodeError`. -/
def pyEncodeAscii (s : String) : Except PyError (List Nat) :=
  if s.toList.all (fun c => c.toNat < 128) then
    .ok (s.toList.map Char.toNat)
  else
    .error .unicodeEncodeError

/-- Python `bytearray` item assignment `b[i] = v` (non-negative index):
raises `IndexError` when `i` is out of range and `ValueError` when `v` is not
a byte value. -/
def pySetItem (b : List Nat) (i : Nat) (v : Nat) : Except PyError (List Nat) :=
  if i < b.length then
    if v < 256 then .ok (b.set i v) else .error (.valueError "byte must be in range(0, 256)")
  else
    .error .indexError

/-- Python `bytearray` slice assignment `b[i:j] = xs` (non-negative bounds,
step 1): bounds are clamped to `[0, len b]`, an empty or reversed range inserts
at the start position, and the bytearray is RESIZED when `xs` differs in length
from the selected slice. -/
def pySetSlice (b : List Nat) (i j : Nat) (xs : List Nat) : List Nat :=
  let istart := min i b.length
  let istop := max istart (min j b.length)
  b.take istart ++ xs ++ b.drop istop

/-- The EEPROM image descriptor, mirroring class `eepCH341`'s attributes in
assignment order (`self.size` holds the size string). -/
structure eepCH341 where
  size : String
  size_bytes : Nat
  majorVersion : Nat
  minorVersion : Nat
  serial : String
  product : String
  MODE : Nat
  CFG : Nat
  VID : Nat × Nat
  PID : Nat × Nat
deriving DecidableEq

/-- `eepCH341.__init__`: stores the size/version fields, then validates
`len(serial) == 8` (else `ValueError`), then `len(product) < 95` (else
`ValueError`), then stores the remaining fields. -/
def eepCH341.init (majorVersion minorVersion : Nat) (serial product : String)
    (size_str : String := "24c02") (size_bytes : Nat := 256)
    (MODE : Nat := 0x12) (CFG : Nat := 0xCC)
    (VID : Nat × Nat := (0x1A, 0x86)) (PID : Nat × Nat := (0x55, 0x12)) :
    Except PyError eepCH341 :=
  if serial.length = 8 then
    if product.length < 95 then
      .ok { size := size_str, size_bytes := size_bytes,
            majorVersion := majorVersion, minorVersion := minorVersion,
            serial := serial, product := product,
            MODE := MODE, CFG := CFG, VID := VID, PID := PID }
    else
      .error (.valueError "Product string too long, max 95 characters")
  else
    .error (.valueError "Serial number must be 8 digits")

/-- `eepCH341.bytes`: builds `bytearray(self.size_bytes - 1)`, assigns the ten
header bytes by item assignment, then splices the ASCII serial into slice
`[16:23)` and the ASCII product at `[32:32+len)` by slice assignment. -/
def eepCH341.bytes (e : eepCH341) : Except PyError (List Nat) :=
  if e.size_bytes = 0 then .error (.valueError "negative count") else
  (pySetItem (List.replicate (e.size_bytes - 1) 0) 0 0x53).bind fun rom =>
  (pySetItem rom 1 e.MODE).bind fun rom =>
  (pySetItem rom 2 e.CFG).bind fun rom =>
  (pySetItem rom 3 0x00).bind fun rom =>
  (pySetItem rom 4 e.VID.2).bind fun rom =>
  (pySetItem rom 5 e.VID.1).bind fun rom =>
  (pySetItem rom 6 e.PID.2).bind fun rom =>
  (pySetItem rom 7 e.PID.1).bind fun rom =>
  (pySetItem rom 8 e.minorVersion).bind fun rom =>
  (pySetItem rom 9 e.majorVersion).bind fun rom =>
  (pyEncodeAscii e.serial).bind fun serial_bytes =>
  let rom := pySetSlice rom 16 23 serial_bytes
  (pyEncodeAscii e.product).bind fun product_bytes =>
  let rom := pySetSlice rom 32 (32 + product_bytes.length) product_bytes
  .ok rom

/-- The descriptor built by the batch loop with the script's default CLI
arguments (serial 13374204, product MESHTOAD, version 1.2). -/
def demoDescriptor : eepCH341 :=
  { size := "24c02", size_bytes := 256, majorVersion := 1, minorVersion := 2,
    serial := "13374204", product := "MESHTOAD",
    MODE := 0x12, CFG := 0xCC, VID := (0x1A, 0x86), PID := (0x55, 0x12) }

/-- Sequential item assignment: write the values `vs` at consecutive indices
starting at `i`.  Used only to restate the header-byte assignment chain. -/
def setSeq (l : List Nat) (i : Nat) (vs : List Nat) : List Nat :=
  match vs with
  | [] => l
  | v :: vs => setSeq (l.set i v) (i + 1) vs

/-- The four operations the batch loop requests from the external tool. -/
inductive Op
  | read
  | erase
  | flash
  | verify
deriving DecidableEq

/-- Ways a loop iteration can die: a Python exception from the image code, a
non-zero exit status of an external-tool invocation (`CalledProcessError`
raised by `check=True`), or the explicit read-size check. -/
inductive StepError
  | pyErr (e : PyError)
  | toolError (op : Op)
  | readSizeMismatch (expected got : Nat)
deriving DecidableEq

/-- Behavior of the external programmer during one loop iteration: the exit
status of each invocation in program order, and the file contents it produces
for the two reads. -/
structure ToolEnv where
  readExit1 : Nat
  readData1 : List Nat
  eraseExit : Nat
  flashExit : Nat
  verifyExit : Nat
  readExit2 : Nat
  readData2 : List Nat

/-- One iteration of the `__main__` batch loop at serial counter `cur_serial`:
construct the descriptor for `str(cur_serial)` with the default size/mode/id
arguments, read the EEPROM (aborting unless exactly `size_bytes` bytes come
back), erase, flash, verify, then read again for display.  Returns the list of
external-tool operations actually invoked, and either the error that aborted
the process or the advanced serial counter. -/
def batchIteration (env : ToolEnv) (majorVersion minorVersion : Nat)
    (product : String) (cur_serial : Nat) : List Op × Except StepError Nat :=
  match eepCH341.init majorVersion minorVersion (toString cur_serial) product with
  | .error pe => ([], .error (.pyErr pe))
  | .ok eeprom =>
    if env.readExit1 ≠ 0 then ([.read], .error (.toolError .read))
    else if env.readData1.length ≠ eeprom.size_bytes then
      ([.read], .error (.readSizeMismatch eeprom.size_bytes env.readData1.length))
    else if env.eraseExit ≠ 0 then ([.read, .erase], .error (.toolError .erase))
    else
      match eeprom.bytes with
      | .error pe => ([.read, .erase], .error (.pyErr pe))
      | .ok _ =>
        if env.flashExit ≠ 0 then ([.read, .erase, .flash], .error (.toolError .flash))
        else
          match eeprom.bytes with
          | .error pe => ([.read, .erase, .flash], .error (.pyErr pe))
          | .ok _ =>
            if env.verifyExit ≠ 0 then
              ([.read, .erase, .flash, .verify], .error (.toolError .verify))
            else if env.readExit2 ≠ 0 then
              ([.read, .erase, .flash, .verify, .read], .error (.toolError .read))
            else
              ([.read, .erase, .flash, .verify, .read], .ok (cur_serial + 1))

/-- File-system state visible to the script and the external tool: the
contents of each named file, `none` when the file is absent. -/
def FS : Type := String → Option (List Nat)

/-- `os.remove(name)`. -/
def fsRemove (fs : FS) (name : String) : FS :=
  fun n => if n = name then none else fs n

/-- Creating or overwriting a file with the given contents. -/
def fsWrite (fs : FS) (name : String) (data : List Nat) : FS :=
  fun n => if n = name then some data else fs n

/-- The guarded deletion `if os.path.exists(name): os.remove(name)`. -/
def fsRemoveIfExists (fs : FS) (name : String) : FS :=
  if (fs name).isSome then fsRemove fs name else fs

/-- Outcome of one device operation: a produced value together with the
resulting on-disk state, or the raised error together with the on-disk state
at the moment of the raise. -/
inductive OpResult (α : Type)
  | ok (a : α) (fs : FS)
  | err (e : StepError) (fs : FS)

/-- `eepCH341.read`: delete a stale `read_eeprom.bin` if present, invoke the
external tool (`check=True`; on exit status 0 it leaves its output in
`read_eeprom.bin`), load the file, delete it, and return its contents. -/
def eepCH341.readFS (e : eepCH341) (exit : Nat) (toolOut : List Nat) (fs : FS) :
    OpResult (List Nat) :=
  let fs1 := fsRemoveIfExists fs "read_eeprom.bin"
  if exit ≠ 0 then .err (.toolError .read) fs1
  else
    let fs2 := fsWrite fs1 "read_eeprom.bin" toolOut
    match fs2 "read_eeprom.bin" with
    | none => .err (.pyErr .fileNotFound) fs2
    | some data => .ok data (fsRemove fs2 "read_eeprom.bin")

/-- `eepCH341.flash`: delete a stale `write_eeprom.bin` if present, write the
built image to it (propagating a build exception), invoke the external tool
(`check=True`), and delete the file on success. -/
def eepCH341.flashFS (e : eepCH341) (exit : Nat) (fs : FS) : OpResult Unit :=
  let fs1 := fsRemoveIfExists fs "write_eeprom.bin"
  match e.bytes with
  | .error pe => .err (.pyErr pe) fs1
  | .ok img =>
    let fs2 := fsWrite fs1 "write_eeprom.bin" img
    if exit ≠ 0 then .err (.toolError .flash) fs2
    else .ok () (fsRemove fs2 "write_eeprom.bin")

/-- `eepCH341.verify`: identical to `flash` but with `verify_eeprom.bin` and
the tool's verify instruction. -/
def eepCH341.verifyFS (e : eepCH341) (exit : Nat) (fs : FS) : OpResult Unit :=
  let fs1 := fsRemoveIfExists fs "verify_eeprom.bin"
  match e.bytes with
  | .error pe => .err (.pyErr pe) fs1
  | .ok img =>
    let fs2 := fsWrite fs1 "verify_eeprom.bin" img
    if exit ≠ 0 then .err (.toolError .verify) fs2
    else .ok () (fsRemove fs2 "verify_eeprom.bin")

/-- An external tool that behaves: every invocation exits 0 and both reads
produce 256 bytes. -/
def demoEnv : ToolEnv :=
  { readExit1 := 0, readData1 := List.replicate 256 0xFF,
    eraseExit := 0, flashExit := 0, verifyExit := 0,
    readExit2 := 0, readData2 := List.replicate 256 0xFF }

/-- An external tool whose first read returns only 128 bytes. -/
def shortReadEnv : ToolEnv :=
  { readExit1 := 0, readData1 := List.replicate 128 0xFF,
    eraseExit := 0, flashExit := 0, verifyExit := 0,
    readExit2 := 0, readData2 := List.replicate 256 0xFF }

/-- The empty file system. -/
def emptyFS : FS := fun _ => none

/-- The image built from the default descriptor (the build succeeds, so the
error arm is never taken). -/
def demoImage : List Nat :=
  match demoDescriptor.bytes with
  | .ok rom => rom
  | .error _ => []

/-! ### Helper lemmas about the embedded primitives -/

example : (demoDescriptor.bytes).map List.length = Except.ok 256 := rfl

theorem except_bind_ok {ε α β : Type} (a : α) (f : α → Except ε β) :
    Except.bind (Except.ok a) f = f a := rfl

theorem except_bind_error {ε α β : Type} (err : ε) (f : α → Except ε β) :
    Except.bind (Except.error err) f = Except.error err := rfl

theorem pySetItem_ok {b : List Nat} {i v : Nat} (hi : i < b.length) (hv : v < 256) :
    pySetItem b i v = .ok (b.set i v) := by
  simp [pySetItem, hi, hv]

theorem pyEncodeAscii_ok {s : String} (h : s.toList.all (fun c => c.toNat < 128)) :
    pyEncodeAscii s = .ok (s.toList.map Char.toNat) := by
  simp only [pyEncodeAscii, h, if_true]

theorem pyEncodeAscii_err {s : String} (h : ¬ s.toList.all (fun c => c.toNat < 128)) :
    pyEncodeAscii s = .error .unicodeEncodeError := by
  unfold pyEncodeAscii
  rw [if_neg (by simpa using h)]

theorem setSeq_cons_succ (a : Nat) (l : List Nat) (i : Nat) (vs : List Nat) :
    setSeq (a :: l) (i + 1) vs = a :: setSeq l i vs := by
  induction vs generalizing a l i with
  | nil => rfl
  | cons v vs ih => simp [setSeq, ih]

theorem setSeq_replicate (vs : List Nat) (N : Nat) (h : vs.length ≤ N) :
    setSeq (List.replicate N 0) 0 vs = vs ++ List.replicate (N - vs.length) 0 := by
  induction vs generalizing N with
  | nil => simp [setSeq]
  | cons v vs ih =>
    obtain ⟨N, rfl⟩ : ∃ M, N = M + 1 := ⟨N - 1, by simp at h; omega⟩
    simp only [List.replicate_succ, setSeq, List.set_cons_zero, setSeq_cons_succ,
      List.length_cons]
    rw [ih N (by simpa using h)]
    simp [Nat.succ_sub_succ]

theorem pySetSlice_serial (hdr sb : List Nat) (hh : hdr.length = 10) :
    pySetSlice (hdr ++ List.replicate 245 0) 16 23 sb
      = hdr ++ List.replicate 6 0 ++ sb ++ List.replicate 232 0 := by
  have hlen : (hdr ++ List.replicate 245 (0 : Nat)).length = 255 := by simp [hh]
  simp only [pySetSlice, hlen]
  norm_num
  rw [List.take_append_eq_append_take, List.drop_append_eq_append_drop]
  rw [List.take_of_length_le (by omega), List.drop_eq_nil_of_le (by omega)]
  simp [hh, List.take_replicate, List.drop_replicate]

theorem pySetSlice_product (pre pb : List Nat) (hpre : pre.length = 24)
    (hpb : pb.length ≤ 94) :
    pySetSlice (pre ++ List.replicate 232 0) 32 (32 + pb.length) pb
      = pre ++ List.replicate 8 0 ++ pb ++ List.replicate (224 - pb.length) 0 := by
  have hlen : (pre ++ List.replicate 232 (0 : Nat)).length = 256 := by simp [hpre]
  have e1 : (32 : Nat) ⊓ 256 = 32 := by norm_num
  have e2 : (32 + pb.length) ⊓ 256 = 32 + pb.length := by omega
  have e3 : (32 : Nat) ⊔ (32 + pb.length) = 32 + pb.length := by omega
  simp only [pySetSlice, hlen, e1, e2, e3]
  rw [List.take_append_eq_append_take, List.drop_append_eq_append_drop]
  rw [List.take_of_length_le (by omega), List.drop_eq_nil_of_le (by omega)]
  rw [hpre, List.take_replicate, List.drop_replicate]
  rw [show (32 - 24 : Nat) ⊓ 232 = 8 from by norm_num]
  rw [show 232 - (32 + pb.length - 24) = 224 - pb.length from by omega]
  simp [List.append_assoc]

theorem header_chain (M C v1 v2 q1 q2 mn mj : Nat) :
    ((((((((((List.replicate 255 (0 : Nat)).set 0 0x53).set 1 M).set 2 C).set 3 0).set
        4 v2).set 5 v1).set 6 q2).set 7 q1).set 8 mn).set 9 mj
      = [0x53, M, C, 0, v2, v1, q2, q1, mn, mj] ++ List.replicate 245 0 := by
  have h := setSeq_replicate [0x53, M, C, 0, v2, v1, q2, q1, mn, mj] 255 (by simp)
  simp only [setSeq] at h
  norm_num at h
  exact h

/-- Closed form of the built image for a descriptor satisfying the spec's data
model: byte-sized numeric fields, ASCII strings with the length invariant, and
the default 256-byte size class. -/
theorem eepCH341.bytes_closed (e : eepCH341)
    (hsize : e.size_bytes = 256)
    (hM : e.MODE < 256) (hC : e.CFG < 256)
    (hV1 : e.VID.1 < 256) (hV2 : e.VID.2 < 256)
    (hP1 : e.PID.1 < 256) (hP2 : e.PID.2 < 256)
    (hmin : e.minorVersion < 256) (hmaj : e.majorVersion < 256)
    (hsA : e.serial.toList.all (fun c => c.toNat < 128))
    (hslen : e.serial.length = 8)
    (hpA : e.product.toList.all (fun c => c.toNat < 128))
    (hplen : e.product.length < 95) :
    e.bytes = .ok (
      [0x53, e.MODE, e.CFG, 0, e.VID.2, e.VID.1, e.PID.2, e.PID.1,
       e.minorVersion, e.majorVersion, 0, 0, 0, 0, 0, 0]
      ++ e.serial.toList.map Char.toNat
      ++ [0, 0, 0, 0, 0, 0, 0, 0]
      ++ e.product.toList.map Char.toNat
      ++ List.replicate (224 - e.product.length) 0) := by
  have hsl : (e.serial.toList.map Char.toNat).length = 8 := by
    simpa using hslen
  have hpl : (e.product.toList.map Char.toNat).length = e.product.length := by
    simp
  unfold eepCH341.bytes
  rw [if_neg (by omega)]
  rw [show e.size_bytes - 1 = 255 from by omega]
  rw [pySetItem_ok (by simp) (by norm_num)]
  simp only [except_bind_ok]
  rw [pySetItem_ok (by simp) hM]
  simp only [except_bind_ok]
  rw [pySetItem_ok (by simp) hC]
  simp only [except_bind_ok]
  rw [pySetItem_ok (by simp) (by norm_num)]
  simp only [except_bind_ok]
  rw [pySetItem_ok (by simp) hV2]
  simp only [except_bind_ok]
  rw [pySetItem_ok (by simp) hV1]
  simp only [except_bind_ok]
  rw [pySetItem_ok (by simp) hP2]
  simp only [except_bind_ok]
  rw [pySetItem_ok (by simp) hP1]
  simp only [except_bind_ok]
  rw [pySetItem_ok (by simp) hmin]
  simp only [except_bind_ok]
  rw [pySetItem_ok (by simp) hmaj]
  simp only [except_bind_ok]
  rw [pyEncodeAscii_ok hsA]
  simp only [except_bind_ok]
  rw [pyEncodeAscii_ok hpA]
  simp only [except_bind_ok]
  rw [header_chain]
  rw [pySetSlice_serial _ _ (by simp)]
  rw [pySetSlice_product _ _ (by simp [hsl, hslen]) (by omega)]
  rw [hpl]
  simp [List.append_assoc]

theorem init_ok {majorVersion minorVersion : Nat} {serial product : String}
    {size_str : String} {size_bytes MODE CFG : Nat} {VID PID : Nat × Nat}
    (hs : serial.length = 8) (hp : product.length < 95) :
    eepCH341.init majorVersion minorVersion serial product size_str size_bytes
        MODE CFG VID PID
      = .ok { size := size_str, size_bytes := size_bytes,
              majorVersion := majorVersion, minorVersion := minorVersion,
              serial := serial, product := product,
              MODE := MODE, CFG := CFG, VID := VID, PID := PID } := by
  unfold eepCH341.init
  rw [if_pos hs, if_pos hp]

/-! ### Claim C1 -/

/-- C1 counterexample: for the batch loop's default descriptor — a valid
descriptor (serial of length 8, product of length < 95) with
`size_bytes = 256` — the image build returns a buffer of length 256, not the
claimed `size_bytes - 1 = 255`: the 8-byte serial is spliced into the
7-element slice `[16:23)`, which grows the bytearray by one byte. -/
theorem bytes_length_not_size_bytes_sub_one :
    demoDescriptor.serial.length = 8 ∧ demoDescriptor.product.length < 95
      ∧ demoDescriptor.size_bytes = 256
      ∧ (demoDescriptor.bytes).map List.length = Except.ok 256
      ∧ (256 : Nat) ≠ 255 :=
  ⟨rfl, by decide, rfl, rfl, by decide⟩

/-- C1 (amended): for every valid descriptor (serial of length 8, product of
length < 95, byte-sized numeric fields, ASCII strings) with
`size_bytes = 256`, the image build returns a buffer whose length equals
`size_bytes` — one byte more than the claimed `size_bytes - 1` — because the
serial slice assignment grows the buffer. -/
theorem bytes_length_eq_size_bytes (e : eepCH341)
    (hsize : e.size_bytes = 256)
    (hM : e.MODE < 256) (hC : e.CFG < 256)
    (hV1 : e.VID.1 < 256) (hV2 : e.VID.2 < 256)
    (hP1 : e.PID.1 < 256) (hP2 : e.PID.2 < 256)
    (hmin : e.minorVersion < 256) (hmaj : e.majorVersion < 256)
    (hsA : e.serial.toList.all (fun c => c.toNat < 128))
    (hslen : e.serial.length = 8)
    (hpA : e.product.toList.all (fun c => c.toNat < 128))
    (hplen : e.product.length < 95) :
    ∃ rom, e.bytes = .ok rom ∧ rom.length = e.size_bytes := by
  refine ⟨_, e.bytes_closed hsize hM hC hV1 hV2 hP1 hP2 hmin hmaj hsA hslen hpA hplen, ?_⟩
  have hsl : e.serial.toList.length = 8 := hslen
  have hpl : e.product.toList.length = e.product.length := rfl
  simp [List.length_append, hsl, hpl, hsize]
  omega

/-- Witness for the amended C1 at the default descriptor. -/
theorem bytes_length_eq_size_bytes_witness :
    ∃ rom, demoDescriptor.bytes = .ok rom ∧ rom.length = demoDescriptor.size_bytes :=
  bytes_length_eq_size_bytes demoDescriptor rfl (by decide) (by decide) (by decide)
    (by decide) (by decide) (by decide) (by decide) (by decide) (by decide) rfl
    (by decide) (by decide)

/-! ### Claim C2 -/

/-- C2: the image build is a deterministic function of the descriptor's
fields: two descriptors whose fields agree pairwise build byte-identical
buffers (on both the success and the failure path). -/
theorem bytes_deterministic (e1 e2 : eepCH341)
    (h0 : e1.size = e2.size) (h1 : e1.size_bytes = e2.size_bytes)
    (h2 : e1.majorVersion = e2.majorVersion) (h3 : e1.minorVersion = e2.minorVersion)
    (h4 : e1.serial = e2.serial) (h5 : e1.product = e2.product)
    (h6 : e1.MODE = e2.MODE) (h7 : e1.CFG = e2.CFG)
    (h8 : e1.VID = e2.VID) (h9 : e1.PID = e2.PID) :
    e1.bytes = e2.bytes := by
  obtain ⟨s0, s1, s2, s3, s4, s5, s6, s7, s8, s9⟩ := e1
  obtain ⟨t0, t1, t2, t3, t4, t5, t6, t7, t8, t9⟩ := e2
  simp only at h0 h1 h2 h3 h4 h5 h6 h7 h8 h9
  subst h0 h1 h2 h3 h4 h5 h6 h7 h8 h9
  rfl

/-- Witness for C2: two separately written copies of the default descriptor's
fields build the same buffer. -/
theorem bytes_deterministic_witness :
    ({ size := "24c02", size_bytes := 256, majorVersion := 1, minorVersion := 2,
       serial := "13374204", product := "MESHTOAD", MODE := 0x12, CFG := 0xCC,
       VID := (0x1A, 0x86), PID := (0x55, 0x12) } : eepCH341).bytes
      = demoDescriptor.bytes :=
  bytes_deterministic _ demoDescriptor rfl rfl rfl rfl rfl rfl rfl rfl rfl rfl

/-! ### Claim C5 -/

/-- C5: descriptor construction raises exactly on the length invariant: a
serial whose length is not 8 raises a construction error, a product of length
at least 95 raises a construction error (whatever the serial), and with both
invariants satisfied construction succeeds and stores every field unchanged. -/
theorem init_validates_lengths (majorVersion minorVersion : Nat)
    (serial product : String) (size_str : String) (size_bytes : Nat)
    (MODE CFG : Nat) (VID PID : Nat × Nat) :
    (serial.length ≠ 8 →
      eepCH341.init majorVersion minorVersion serial product size_str size_bytes
          MODE CFG VID PID
        = .error (.valueError "Serial number must be 8 digits"))
    ∧ (95 ≤ product.length →
      (eepCH341.init majorVersion minorVersion serial product size_str size_bytes
          MODE CFG VID PID).toOption = none)
    ∧ (serial.length = 8 → product.length < 95 →
      eepCH341.init majorVersion minorVersion serial product size_str size_bytes
          MODE CFG VID PID
        = .ok { size := size_str, size_bytes := size_bytes,
                majorVersion := majorVersion, minorVersion := minorVersion,
                serial := serial, product := product,
                MODE := MODE, CFG := CFG, VID := VID, PID := PID }) := by
  refine ⟨fun hs => ?_, fun hp => ?_, fun hs hp => init_ok hs hp⟩
  · unfold eepCH341.init
    rw [if_neg hs]
  · unfold eepCH341.init
    by_cases hs : serial.length = 8
    · rw [if_pos hs, if_neg (by omega)]
      rfl
    · rw [if_neg hs]
      rfl

/-- Witness for C5: a 7-character serial raises, a 95-character product
raises, and the default arguments construct the default descriptor. -/
theorem init_validates_lengths_witness :
    (eepCH341.init 1 2 "1337420" "MESHTOAD" "24c02" 256 0x12 0xCC (0x1A, 0x86) (0x55, 0x12)
      = .error (.valueError "Serial number must be 8 digits"))
    ∧ ((eepCH341.init 1 2 "13374204" (String.mk (List.replicate 95 'A')) "24c02" 256
        0x12 0xCC (0x1A, 0x86) (0x55, 0x12)).toOption = none)
    ∧ (eepCH341.init 1 2 "13374204" "MESHTOAD" "24c02" 256 0x12 0xCC (0x1A, 0x86) (0x55, 0x12)
      = .ok demoDescriptor) :=
  ⟨(init_validates_lengths 1 2 "1337420" "MESHTOAD" "24c02" 256 0x12 0xCC
      (0x1A, 0x86) (0x55, 0x12)).1 (by decide),
   (init_validates_lengths 1 2 "13374204" (String.mk (List.replicate 95 'A')) "24c02" 256
      0x12 0xCC (0x1A, 0x86) (0x55, 0x12)).2.1 (by simp [String.length]),
   (init_validates_lengths 1 2 "13374204" "MESHTOAD" "24c02" 256 0x12 0xCC
      (0x1A, 0x86) (0x55, 0x12)).2.2 (by decide) (by decide)⟩

/-! ### Claim C9 -/

/-- C9: construction validates only the serial's length, never its content:
every 8-character serial string — digits or not — is accepted, and the fields
are stored unchanged. -/
theorem init_ignores_serial_content (majorVersion minorVersion : Nat)
    (serial product : String) (size_str : String) (size_bytes : Nat)
    (MODE CFG : Nat) (VID PID : Nat × Nat)
    (hs : serial.length = 8) (hp : product.length < 95) :
    eepCH341.init majorVersion minorVersion serial product size_str size_bytes
        MODE CFG VID PID
      = .ok { size := size_str, size_bytes := size_bytes,
              majorVersion := majorVersion, minorVersion := minorVersion,
              serial := serial, product := product,
              MODE := MODE, CFG := CFG, VID := VID, PID := PID } :=
  init_ok hs hp

/-- Witness for C9: the entirely non-numeric 8-character serial "MESHTOAD"
passes construction. -/
theorem init_ignores_serial_content_witness :
    eepCH341.init 1 2 "MESHTOAD" "MESHTOAD" "24c02" 256 0x12 0xCC (0x1A, 0x86) (0x55, 0x12)
      = .ok { size := "24c02", size_bytes := 256, majorVersion := 1, minorVersion := 2,
              serial := "MESHTOAD", product := "MESHTOAD", MODE := 0x12, CFG := 0xCC,
              VID := (0x1A, 0x86), PID := (0x55, 0x12) } :=
  init_ignores_serial_content 1 2 "MESHTOAD" "MESHTOAD" "24c02" 256 0x12 0xCC
    (0x1A, 0x86) (0x55, 0x12) (by decide) (by decide)

/-! ### Claim C3 -/

/-- C3: for every valid descriptor with the default 256-byte size class, the
built buffer has the fixed header map: byte 0 = 0x53, byte 1 = mode,
byte 2 = config, byte 3 = 0, byte 4 = second vendor-ID element,
byte 5 = first vendor-ID element, byte 6 = second product-ID element,
byte 7 = first product-ID element, byte 8 = minor version,
byte 9 = major version, and bytes 10-15 and 24-31 are zero. -/
theorem bytes_header_map (e : eepCH341)
    (hsize : e.size_bytes = 256)
    (hM : e.MODE < 256) (hC : e.CFG < 256)
    (hV1 : e.VID.1 < 256) (hV2 : e.VID.2 < 256)
    (hP1 : e.PID.1 < 256) (hP2 : e.PID.2 < 256)
    (hmin : e.minorVersion < 256) (hmaj : e.majorVersion < 256)
    (hsA : e.serial.toList.all (fun c => c.toNat < 128))
    (hslen : e.serial.length = 8)
    (hpA : e.product.toList.all (fun c => c.toNat < 128))
    (hplen : e.product.length < 95) :
    ∃ rom, e.bytes = .ok rom
      ∧ rom.take 16 = [0x53, e.MODE, e.CFG, 0x00, e.VID.2, e.VID.1, e.PID.2, e.PID.1,
          e.minorVersion, e.majorVersion, 0, 0, 0, 0, 0, 0]
      ∧ (rom.drop 24).take 8 = List.replicate 8 0 := by
  have hS : (List.map Char.toNat e.serial.toList).length = 8 := by simpa using hslen
  refine ⟨_, e.bytes_closed hsize hM hC hV1 hV2 hP1 hP2 hmin hmaj hsA hslen hpA hplen,
    ?_, ?_⟩
  · simp only [List.append_assoc]
    rw [List.take_left']
    all_goals rfl
  · simp only [List.append_assoc]
    rw [show (24 : Nat) = 16 + 8 from rfl, ← List.drop_drop]
    rw [List.drop_left', List.drop_left', List.take_left']
    all_goals first | rfl | exact hS

/-- Witness for C3 at the default descriptor. -/
theorem bytes_header_map_witness :
    ∃ rom, demoDescriptor.bytes = .ok rom
      ∧ rom.take 16 = [0x53, demoDescriptor.MODE, demoDescriptor.CFG, 0x00,
          demoDescriptor.VID.2, demoDescriptor.VID.1, demoDescriptor.PID.2,
          demoDescriptor.PID.1, demoDescriptor.minorVersion, demoDescriptor.majorVersion,
          0, 0, 0, 0, 0, 0]
      ∧ (rom.drop 24).take 8 = List.replicate 8 0 :=
  bytes_header_map demoDescriptor rfl (by decide) (by decide) (by decide) (by decide)
    (by decide) (by decide) (by decide) (by decide) (by decide) rfl (by decide) (by decide)

/-! ### Claim C4 -/

/-- C4: for every valid descriptor with the default 256-byte size class, the
8 ASCII bytes of the serial occupy exactly offsets 16-23 with no terminator,
the ASCII bytes of the product start at offset 32 and run for exactly the
product's length, and every byte after the product keeps the buffer's zero
initialization. -/
theorem bytes_serial_product_layout (e : eepCH341)
    (hsize : e.size_bytes = 256)
    (hM : e.MODE < 256) (hC : e.CFG < 256)
    (hV1 : e.VID.1 < 256) (hV2 : e.VID.2 < 256)
    (hP1 : e.PID.1 < 256) (hP2 : e.PID.2 < 256)
    (hmin : e.minorVersion < 256) (hmaj : e.majorVersion < 256)
    (hsA : e.serial.toList.all (fun c => c.toNat < 128))
    (hslen : e.serial.length = 8)
    (hpA : e.product.toList.all (fun c => c.toNat < 128))
    (hplen : e.product.length < 95) :
    ∃ rom, e.bytes = .ok rom
      ∧ (rom.drop 16).take 8 = e.serial.toList.map Char.toNat
      ∧ (rom.drop 32).take e.product.length = e.product.toList.map Char.toNat
      ∧ rom.drop (32 + e.product.length) = List.replicate (224 - e.product.length) 0 := by
  have hS : (List.map Char.toNat e.serial.toList).length = 8 := by simpa using hslen
  have hP : (List.map Char.toNat e.product.toList).length = e.product.length := by simp
  refine ⟨_, e.bytes_closed hsize hM hC hV1 hV2 hP1 hP2 hmin hmaj hsA hslen hpA hplen,
    ?_, ?_, ?_⟩
  · simp only [List.append_assoc]
    rw [List.drop_left', List.take_left']
    all_goals first | rfl | exact hS
  · simp only [List.append_assoc]
    rw [show (32 : Nat) = 16 + 16 from rfl, ← List.drop_drop, List.drop_left']
    rw [show (16 : Nat) = 8 + 8 from rfl, ← List.drop_drop, List.drop_left']
    rw [List.drop_left', List.take_left']
    all_goals first | rfl | exact hS | exact hP
  · simp only [List.append_assoc]
    rw [← List.drop_drop]
    rw [show (32 : Nat) = 16 + 16 from rfl, ← List.drop_drop, List.drop_left']
    rw [show (16 : Nat) = 8 + 8 from rfl, ← List.drop_drop, List.drop_left']
    rw [List.drop_left', List.drop_left']
    all_goals first | rfl | exact hS | exact hP

/-- Witness for C4 at the default descriptor. -/
theorem bytes_serial_product_layout_witness :
    ∃ rom, demoDescriptor.bytes = .ok rom
      ∧ (rom.drop 16).take 8 = demoDescriptor.serial.toList.map Char.toNat
      ∧ (rom.drop 32).take demoDescriptor.product.length
          = demoDescriptor.product.toList.map Char.toNat
      ∧ rom.drop (32 + demoDescriptor.product.length)
          = List.replicate (224 - demoDescriptor.product.length) 0 :=
  bytes_serial_product_layout demoDescriptor rfl (by decide) (by decide) (by decide)
    (by decide) (by decide) (by decide) (by decide) (by decide) (by decide) rfl
    (by decide) (by decide)

/-- Helper: with byte-sized numeric fields and the default size class, the
build raises `UnicodeEncodeError` as soon as the serial or the product
contains a non-ASCII character. -/
theorem bytes_err_of_non_ascii (e : eepCH341)
    (hsize : e.size_bytes = 256)
    (hM : e.MODE < 256) (hC : e.CFG < 256)
    (hV1 : e.VID.1 < 256) (hV2 : e.VID.2 < 256)
    (hP1 : e.PID.1 < 256) (hP2 : e.PID.2 < 256)
    (hmin : e.minorVersion < 256) (hmaj : e.majorVersion < 256)
    (hna : ¬ e.serial.toList.all (fun c => c.toNat < 128)
         ∨ ¬ e.product.toList.all (fun c => c.toNat < 128)) :
    e.bytes = .error .unicodeEncodeError := by
  unfold eepCH341.bytes
  rw [if_neg (by omega)]
  rw [show e.size_bytes - 1 = 255 from by omega]
  rw [pySetItem_ok (by simp) (by norm_num)]
  simp only [except_bind_ok]
  rw [pySetItem_ok (by simp) hM]
  simp only [except_bind_ok]
  rw [pySetItem_ok (by simp) hC]
  simp only [except_bind_ok]
  rw [pySetItem_ok (by simp) (by norm_num)]
  simp only [except_bind_ok]
  rw [pySetItem_ok (by simp) hV2]
  simp only [except_bind_ok]
  rw [pySetItem_ok (by simp) hV1]
  simp only [except_bind_ok]
  rw [pySetItem_ok (by simp) hP2]
  simp only [except_bind_ok]
  rw [pySetItem_ok (by simp) hP1]
  simp only [except_bind_ok]
  rw [pySetItem_ok (by simp) hmin]
  simp only [except_bind_ok]
  rw [pySetItem_ok (by simp) hmaj]
  simp only [except_bind_ok]
  by_cases hsa : e.serial.toList.all (fun c => c.toNat < 128)
  · rw [pyEncodeAscii_ok hsa]
    simp only [except_bind_ok]
    rw [pyEncodeAscii_err (hna.resolve_left (not_not_intro hsa))]
    rfl
  · rw [pyEncodeAscii_err hsa]
    rfl

/-! ### Claim C10 -/

/-- C10: the image build is total only on ASCII descriptors: a descriptor
whose 8-character serial or sub-95-character product contains a non-ASCII
character passes construction — which checks only lengths — but the build
then raises an encoding error instead of returning a buffer. -/
theorem init_accepts_non_ascii_but_bytes_raises
    (majorVersion minorVersion MODE CFG v1 v2 q1 q2 : Nat) (serial product : String)
    (hM : MODE < 256) (hC : CFG < 256) (hv1 : v1 < 256) (hv2 : v2 < 256)
    (hq1 : q1 < 256) (hq2 : q2 < 256) (hmn : minorVersion < 256) (hmj : majorVersion < 256)
    (hs : serial.length = 8) (hp : product.length < 95)
    (hna : ¬ serial.toList.all (fun c => c.toNat < 128)
         ∨ ¬ product.toList.all (fun c => c.toNat < 128)) :
    ∃ d, eepCH341.init majorVersion minorVersion serial product "24c02" 256
        MODE CFG (v1, v2) (q1, q2) = .ok d
      ∧ d.bytes = .error .unicodeEncodeError := by
  refine ⟨_, init_ok hs hp, ?_⟩
  exact bytes_err_of_non_ascii _ rfl hM hC hv1 hv2 hq1 hq2 hmn hmj hna

/-- Witness for C10: the serial "1337420Ä" has length 8 and passes
construction, but its last character is non-ASCII and the build raises. -/
theorem init_accepts_non_ascii_but_bytes_raises_witness :
    ∃ d, eepCH341.init 1 2 "1337420Ä" "MESHTOAD" "24c02" 256
        0x12 0xCC (0x1A, 0x86) (0x55, 0x12) = .ok d
      ∧ d.bytes = .error .unicodeEncodeError :=
  init_accepts_non_ascii_but_bytes_raises 1 2 0x12 0xCC 0x1A 0x86 0x55 0x12
    "1337420Ä" "MESHTOAD" (by decide) (by decide) (by decide) (by decide) (by decide)
    (by decide) (by decide) (by decide) (by decide) (by decide) (Or.inl (by decide))

/-! ### Claim C6 -/

/-- C6: in any batch-loop iteration whose initial read succeeds as a process
but returns a byte count different from the descriptor's `size_bytes` (256),
the iteration aborts with the read-size-mismatch error, and neither the erase
nor the flash operation is ever invoked. -/
theorem read_size_mismatch_aborts (env : ToolEnv) (majorVersion minorVersion : Nat)
    (product : String) (cur_serial : Nat)
    (hs : (toString cur_serial).length = 8) (hp : product.length < 95)
    (hr : env.readExit1 = 0) (hlen : env.readData1.length ≠ 256) :
    batchIteration env majorVersion minorVersion product cur_serial
      = ([Op.read], .error (.readSizeMismatch 256 env.readData1.length))
    ∧ Op.erase ∉ (batchIteration env majorVersion minorVersion product cur_serial).1
    ∧ Op.flash ∉ (batchIteration env majorVersion minorVersion product cur_serial).1 := by
  have hmain : batchIteration env majorVersion minorVersion product cur_serial
      = ([Op.read], .error (.readSizeMismatch 256 env.readData1.length)) := by
    unfold batchIteration
    rw [init_ok hs hp]
    dsimp only
    rw [if_neg (fun hcon => hcon hr), if_pos hlen]
  refine ⟨hmain, ?_, ?_⟩ <;> rw [hmain] <;> simp

/-- Witness for C6: a 128-byte initial read aborts the iteration after the
read alone. -/
theorem read_size_mismatch_aborts_witness :
    batchIteration shortReadEnv 1 2 "MESHTOAD" 13374204
      = ([Op.read], .error (.readSizeMismatch 256 shortReadEnv.readData1.length))
    ∧ Op.erase ∉ (batchIteration shortReadEnv 1 2 "MESHTOAD" 13374204).1
    ∧ Op.flash ∉ (batchIteration shortReadEnv 1 2 "MESHTOAD" 13374204).1 :=
  read_size_mismatch_aborts shortReadEnv 1 2 "MESHTOAD" 13374204 (by decide) (by decide)
    (by decide) (by decide)

/-! ### Claim C7 -/

/-- C7: the serial counter advances only when the whole iteration succeeds:
if the iteration's result carries a new counter value it is `cur_serial + 1`
and every external invocation (both reads, erase, flash, verify) exited 0;
conversely, a non-zero exit status of any invocation means the iteration
never produces a new counter value — the counter is left unchanged. -/
theorem counter_advances_iff_all_succeed (env : ToolEnv) (majorVersion minorVersion : Nat)
    (product : String) (cur_serial : Nat) :
    (∀ n, (batchIteration env majorVersion minorVersion product cur_serial).2 = .ok n →
      n = cur_serial + 1 ∧ env.readExit1 = 0 ∧ env.eraseExit = 0 ∧ env.flashExit = 0
        ∧ env.verifyExit = 0 ∧ env.readExit2 = 0)
    ∧ ((env.readExit1 ≠ 0 ∨ env.eraseExit ≠ 0 ∨ env.flashExit ≠ 0 ∨ env.verifyExit ≠ 0
         ∨ env.readExit2 ≠ 0) →
       ∀ n, (batchIteration env majorVersion minorVersion product cur_serial).2 ≠ .ok n) := by
  have main : ∀ n,
      (batchIteration env majorVersion minorVersion product cur_serial).2 = .ok n →
      n = cur_serial + 1 ∧ env.readExit1 = 0 ∧ env.eraseExit = 0 ∧ env.flashExit = 0
        ∧ env.verifyExit = 0 ∧ env.readExit2 = 0 := by
    intro n h
    unfold batchIteration at h
    repeat' split at h
    all_goals simp_all
  refine ⟨main, fun hbad n hok => ?_⟩
  obtain ⟨-, h1, h2, h3, h4, h5⟩ := main n hok
  rcases hbad with h | h | h | h | h <;> omega

/-- Witness for C7: with a fully successful environment the iteration yields
exactly the incremented counter. -/
theorem counter_advances_iff_all_succeed_witness :
    13374205 = 13374204 + 1 ∧ demoEnv.readExit1 = 0 ∧ demoEnv.eraseExit = 0
      ∧ demoEnv.flashExit = 0 ∧ demoEnv.verifyExit = 0 ∧ demoEnv.readExit2 = 0 :=
  (counter_advances_iff_all_succeed demoEnv 1 2 "MESHTOAD" 13374204).1 13374205 rfl

/-- Helper: deleting-if-present makes a freshly written stale file and an
absent file indistinguishable. -/
theorem fsRemoveIfExists_write (fs : FS) (name : String) (stale : List Nat) :
    fsRemoveIfExists (fsWrite fs name stale) name
      = fsRemoveIfExists (fsRemove fs name) name := by
  unfold fsRemoveIfExists fsWrite fsRemove
  simp only [if_pos rfl, Option.isSome_some, Option.isSome_none, if_true, if_false]
  funext n
  by_cases h : n = name <;> simp [h]

/-! ### Claim C8 -/

/-- C8: for each of the read, flash and verify operations, a pre-existing
same-named temporary file is deleted before the operation writes — running on
a file system with a stale temporary file is identical to running with that
file absent — and whenever the operation returns successfully its temporary
file (`read_eeprom.bin`, `write_eeprom.bin`, `verify_eeprom.bin`) no longer
exists on disk. -/
theorem tempfiles_cleaned (e : eepCH341) (exit : Nat) (toolOut stale : List Nat)
    (fs : FS) :
    (∀ d fs', e.readFS exit toolOut fs = .ok d fs' → fs' "read_eeprom.bin" = none)
    ∧ (∀ u fs', e.flashFS exit fs = .ok u fs' → fs' "write_eeprom.bin" = none)
    ∧ (∀ u fs', e.verifyFS exit fs = .ok u fs' → fs' "verify_eeprom.bin" = none)
    ∧ e.readFS exit toolOut (fsWrite fs "read_eeprom.bin" stale)
        = e.readFS exit toolOut (fsRemove fs "read_eeprom.bin")
    ∧ e.flashFS exit (fsWrite fs "write_eeprom.bin" stale)
        = e.flashFS exit (fsRemove fs "write_eeprom.bin")
    ∧ e.verifyFS exit (fsWrite fs "verify_eeprom.bin" stale)
        = e.verifyFS exit (fsRemove fs "verify_eeprom.bin") := by
  refine ⟨?_, ?_, ?_, ?_, ?_, ?_⟩
  · intro d fs' h
    unfold eepCH341.readFS at h
    split at h
    · exact OpResult.noConfusion h
    · simp only [fsWrite] at h
      cases h
      simp [fsRemove]
  · intro u fs' h
    unfold eepCH341.flashFS at h
    split at h
    · exact OpResult.noConfusion h
    · split at h
      · exact OpResult.noConfusion h
      · cases h
        simp [fsRemove]
  · intro u fs' h
    unfold eepCH341.verifyFS at h
    split at h
    · exact OpResult.noConfusion h
    · split at h
      · exact OpResult.noConfusion h
      · cases h
        simp [fsRemove]
  · unfold eepCH341.readFS
    rw [fsRemoveIfExists_write]
  · unfold eepCH341.flashFS
    rw [fsRemoveIfExists_write]
  · unfold eepCH341.verifyFS
    rw [fsRemoveIfExists_write]

/-- Witness for C8: successful read, flash and verify runs on the empty file
system leave their temporary files absent. -/
theorem tempfiles_cleaned_witness :
    ((fsRemove (fsWrite (fsRemoveIfExists emptyFS "read_eeprom.bin") "read_eeprom.bin"
        (List.replicate 256 0xFF)) "read_eeprom.bin") "read_eeprom.bin" = none)
    ∧ ((fsRemove (fsWrite (fsRemoveIfExists emptyFS "write_eeprom.bin") "write_eeprom.bin"
        demoImage) "write_eeprom.bin") "write_eeprom.bin" = none)
    ∧ ((fsRemove (fsWrite (fsRemoveIfExists emptyFS "verify_eeprom.bin") "verify_eeprom.bin"
        demoImage) "verify_eeprom.bin") "verify_eeprom.bin" = none) :=
  ⟨(tempfiles_cleaned demoDescriptor 0 (List.replicate 256 0xFF) [] emptyFS).1 _ _ rfl,
   (tempfiles_cleaned demoDescriptor 0 (List.replicate 256 0xFF) [] emptyFS).2.1 () _ rfl,
   (tempfiles_cleaned demoDescriptor 0 (List.replicate 256 0xFF) [] emptyFS).2.2.1 () _ rfl⟩

end CH341
